import Mathlib

/-
Verification development for the eval-hub Model Server Registry and
Evaluation Status Aggregation Engine.

The registry logic is a shallow embedding of
`src/eval_hub/services/model_service.py` (class ModelService).  Python
dictionaries are embedded as association lists with insert-or-replace
semantics, the process environment as an association list of variable
names to values, and wall-clock time (`utcnow()`) as an explicit `now : Nat`
parameter supplied per operation invocation.  Log emission is embedded as
an explicit list of warning events returned by the environment loader.

The status aggregation engine lives in `services/response_builder.py`,
which is absent from the sources; it is modelled from the specification
together with its unit tests in `tests/unit/test_response_builder.py`.
-/

namespace EvalHub

/-! ## Evaluation status aggregation -/

/-- Modelled from the spec: the evaluation lifecycle status enum of
`models/status.py` (absent from the sources): pending, running, completed,
failed, cancelled. -/
inductive EvaluationStatus where
  | pending
  | running
  | completed
  | failed
  | cancelled
deriving DecidableEq, Repr

/-- Modelled from the spec: `ResponseBuilder._count_results_by_status`
(`services/response_builder.py`, absent from the sources).  Tallies the
statuses of the results of one request; a status absent from the Python
dict corresponds to a count of zero here. -/
def countResultsByStatus (results : List EvaluationStatus) : EvaluationStatus → Nat :=
  fun st => results.count st

/-- Modelled from the spec: `ResponseBuilder._determine_overall_status`
(`services/response_builder.py`, absent from the sources).  Ordered rules,
first match wins, following spec section 4.3 for the total-zero, running
and pending rules.  For the remaining (terminal) tallies the spec claims
the result is always completed, but the unit test
`test_determine_overall_status_all_failed`
(`tests/unit/test_response_builder.py`) asserts that an all-failed tally
yields failed, while `test_determine_overall_status_partial_failure` and
`test_determine_overall_status_no_failures_or_completions` assert completed
for a completed/failed mix and for an all-cancelled tally; the all-failed
branch therefore tests the failed count against the expected total, the
minimal rule consistent with every unit test. -/
def determineOverallStatus (counts : EvaluationStatus → Nat) (total : Nat) :
    EvaluationStatus :=
  if total = 0 then .pending
  else if 0 < counts .running then .running
  else if 0 < counts .pending then .pending
  else if counts .failed = total then .failed
  else .completed

/-! ## Registry data model -/

/-- Modelled from the spec: the activity status enum of `models/model.py`
(absent from the sources): active, inactive, unknown. -/
inductive ModelStatus where
  | active
  | inactive
  | unknown
deriving DecidableEq, Repr

/-- Modelled from the spec: the server type enum of `models/model.py`
(absent from the sources).  The spec names only the example wire protocol
"openai-compatible", which is also the default used throughout
`model_service.py`. -/
inductive ModelType where
  | openai_compatible
deriving DecidableEq, Repr

/-- Modelled from the spec: `ServerModel` of `models/model.py` (absent from
the sources): model name, optional description, activity status, tags. -/
structure ServerModel where
  model_name : String
  description : Option String
  status : ModelStatus
  tags : List String
deriving DecidableEq, Repr

/-- Modelled from the spec: `ModelServer` of `models/model.py` (absent from
the sources).  Timestamps are embedded as natural numbers.  The opaque
server-specific configuration is embedded as an optional opaque string. -/
structure ModelServer where
  server_id : String
  server_type : ModelType
  base_url : String
  api_key_required : Bool
  models : List ServerModel
  server_config : Option String
  status : ModelStatus
  tags : List String
  created_at : Nat
  updated_at : Nat
deriving DecidableEq, Repr

/-- The process environment: an ordered list of variable/value pairs, as
iterated by `os.environ.items()`. -/
abbrev Env := List (String × String)

/-- Embedding of `os.getenv(k)`: the value of the first binding of `k`. -/
def getenv : Env → String → Option String
  | [], _ => none
  | p :: rest, k => if p.1 = k then some p.2 else getenv rest k

/-- Embedding of `os.getenv(k, d)`. -/
def getenvD (env : Env) (k d : String) : String :=
  (getenv env k).getD d

/-- Python dict membership `k in m` for an identifier-keyed mapping. -/
def hasKey : List (String × ModelServer) → String → Bool
  | [], _ => false
  | p :: rest, k => if p.1 = k then true else hasKey rest k

/-- Python dict lookup `m[k]` for an identifier-keyed mapping. -/
def lookupSrv : List (String × ModelServer) → String → Option ModelServer
  | [], _ => none
  | p :: rest, k => if p.1 = k then some p.2 else lookupSrv rest k

/-- Python dict assignment `m[k] = v`: replaces the value in place if the
key is present, otherwise appends the new binding at the end. -/
def dictInsert : List (String × ModelServer) → String → ModelServer →
    List (String × ModelServer)
  | [], k, v => [(k, v)]
  | p :: rest, k, v => if p.1 = k then (k, v) :: rest else p :: dictInsert rest k v

/-- Python dict deletion `del m[k]`. -/
def dictErase : List (String × ModelServer) → String → List (String × ModelServer)
  | [], _ => []
  | p :: rest, k => if p.1 = k then rest else p :: dictErase rest k

/-- Character-list helper for `strContains`: does the first list start the
second one? -/
def charPre : List Char → List Char → Bool
  | [], _ => true
  | _ :: _, [] => false
  | c :: cs, d :: ds => if c = d then charPre cs ds else false

/-- Character-list helper for `strContains`: does the first list occur as a
contiguous run inside the second one? -/
def charSub : List Char → List Char → Bool
  | pat, [] => charPre pat []
  | pat, d :: ds => if charPre pat (d :: ds) then true else charSub pat ds

/-- Embedding of the Python substring test `pat in s`. -/
def strContains (s pat : String) : Bool :=
  charSub pat.toList s.toList

/-- Embedding of `str.startswith` by structural recursion over the
character data (the core library versions are not kernel-reducible). -/
def strStarts (s pre : String) : Bool :=
  charPre pre.toList s.toList

/-- Embedding of `str.endswith`. -/
def strEnds (s suf : String) : Bool :=
  charPre suf.toList.reverse s.toList.reverse

/-- Embedding of `str.strip()`: surrounding whitespace removed (the
environment values at stake are ASCII, for which the Lean and Python
whitespace classes agree). -/
def strTrim (s : String) : String :=
  ⟨((s.toList.dropWhile Char.isWhitespace).reverse.dropWhile Char.isWhitespace).reverse⟩

/-- ASCII lowering of one character, as `str.lower` acts on the ASCII
environment-variable text at stake. -/
def charLower (c : Char) : Char :=
  if 65 ≤ c.toNat ∧ c.toNat ≤ 90 then Char.ofNat (c.toNat + 32) else c

/-- Embedding of `str.lower()`. -/
def strLower (s : String) : String :=
  ⟨s.toList.map charLower⟩

/-- Helper for `splitComma`: accumulates the current (reversed) field. -/
def splitCommaAux : List Char → List Char → List String
  | cur, [] => [⟨cur.reverse⟩]
  | cur, c :: cs =>
    if c = ',' then ⟨cur.reverse⟩ :: splitCommaAux [] cs
    else splitCommaAux (c :: cur) cs

/-- Embedding of `str.split(",")`. -/
def splitComma (s : String) : List String :=
  splitCommaAux [] s.toList

/-- Embedding of `re.match(r"<pre>(.+)<suf>", v)` as used on environment
variable names already filtered by `startswith(pre)`/`endswith(suf)`: with
a greedy group the captured text is everything strictly between the first
occurrence of `pre` and the final occurrence of `suf`; the match fails when
nothing stands between them. -/
def midOf (pre suf v : String) : Option String :=
  if strStarts v pre ∧ strEnds v suf ∧ pre.length + suf.length < v.length then
    some ⟨(v.toList.drop pre.length).take (v.length - pre.length - suf.length)⟩
  else none

/-- Embedding of `ModelType(s)` construction: `some` on a recognized wire
protocol name, `none` (a Python `ValueError`) otherwise. -/
def parseModelType (s : String) : Option ModelType :=
  if s = "openai-compatible" then some .openai_compatible else none

/-- Embedding of the comma-separated model-name parsing shared by the
simple and namespaced patterns (`model_service.py` lines 76-82/154-163):
split on commas, trim, drop empties; an empty outcome defaults to a single
name equal to the server identifier. -/
def parseModelNames (models_str server_id : String) : List String :=
  let names :=
    if models_str = "" then []
    else ((splitComma models_str).map strTrim).filter (fun m => ¬ m = "")
  if names = [] then [server_id] else names

/-- Embedding of the `ServerModel(...)` construction shared by all three
loader patterns: named model, no description, active, tagged runtime. -/
def mkServerModel (name : String) : ServerModel :=
  { model_name := name
    description := none
    status := .active
    tags := ["runtime"] }

/-- A warning event emitted via `logger.warning` during a load. -/
inductive LoadWarning where
  | invalidSimpleType (given : String)
  | emptyUrl (server_id : String)
  | invalidType (given : String) (server_id : String)
deriving DecidableEq, Repr

/-! ## Environment server loader (`ModelService._load_runtime_servers`) -/

/-- Embedding of the simple pattern (`model_service.py` lines 58-114):
`MODEL_SERVER_URL` with optional `MODEL_SERVER_ID` / `MODEL_SERVER_TYPE` /
`MODEL_SERVER_MODELS`.  Returns the produced bindings and the emitted
warnings.  The two emptiness tests mirror the Python truthiness test on the
raw value followed by the test on the stripped value. -/
def simpleLoad (env : Env) (now : Nat) :
    List (String × ModelServer) × List LoadWarning :=
  match getenv env "MODEL_SERVER_URL" with
  | none => ([], [])
  | some u =>
    if u = "" then ([], [])
    else
      let url := strTrim u
      if url = "" then ([], [])
      else
        let server_id := getenvD env "MODEL_SERVER_ID" "default"
        let type_str := getenvD env "MODEL_SERVER_TYPE" "openai-compatible"
        let models_str := getenvD env "MODEL_SERVER_MODELS" ""
        let tw : ModelType × List LoadWarning :=
          match parseModelType (strLower type_str) with
          | some t => (t, [])
          | none => (.openai_compatible, [.invalidSimpleType type_str])
        let names := parseModelNames models_str server_id
        let server : ModelServer :=
          { server_id := server_id
            server_type := tw.1
            base_url := url
            api_key_required := true
            models := names.map mkServerModel
            server_config := none
            status := .active
            tags := ["runtime"]
            created_at := now
            updated_at := now }
        ([(server_id, server)], tw.2)

/-- Embedding of one iteration of the namespaced multi-server pattern
(`model_service.py` lines 116-197) on the environment entry `kv`:
`EVAL_HUB_MODEL_SERVER_<SERVER_ID>_URL` with optional companion `_ID` /
`_TYPE` / `_MODELS` variables; an empty trimmed URL is skipped with a
warning; a same-identifier binding already in the accumulator is
overwritten. -/
def namespacedStep (env : Env) (now : Nat)
    (acc : List (String × ModelServer) × List LoadWarning)
    (kv : String × String) :
    List (String × ModelServer) × List LoadWarning :=
  match midOf "EVAL_HUB_MODEL_SERVER_" "_URL" kv.1 with
  | none => acc
  | some mid =>
    let sid0 := strLower mid
    let url := strTrim kv.2
    if url = "" then (acc.1, acc.2 ++ [.emptyUrl sid0])
    else
      let sid := getenvD env ("EVAL_HUB_MODEL_SERVER_" ++ mid ++ "_ID") sid0
      let type_str :=
        getenvD env ("EVAL_HUB_MODEL_SERVER_" ++ mid ++ "_TYPE") "openai-compatible"
      let models_str := getenvD env ("EVAL_HUB_MODEL_SERVER_" ++ mid ++ "_MODELS") ""
      let tw : ModelType × List LoadWarning :=
        match parseModelType (strLower type_str) with
        | some t => (t, [])
        | none => (.openai_compatible, [.invalidType type_str sid])
      let names := parseModelNames models_str sid
      let server : ModelServer :=
        { server_id := sid
          server_type := tw.1
          base_url := url
          api_key_required := true
          models := names.map mkServerModel
          server_config := none
          status := .active
          tags := ["runtime"]
          created_at := now
          updated_at := now }
      (dictInsert acc.1 sid server, acc.2 ++ tw.2)

/-- The `ModelServer(...)` construction of the legacy pattern
(`model_service.py` lines 232-250): single model named after the final
server identifier. -/
def mkLegacyServer (env : Env) (now : Nat) (mid sid url : String) : ModelServer :=
  { server_id := sid
    server_type :=
      (parseModelType (strLower (getenvD env ("EVAL_HUB_MODEL_" ++ mid ++ "_TYPE")
        "openai-compatible"))).getD .openai_compatible
    base_url := url
    api_key_required := true
    models := [mkServerModel sid]
    server_config := none
    status := .active
    tags := ["runtime"]
    created_at := now
    updated_at := now }

/-- Embedding of one iteration of the legacy single-model pattern
(`model_service.py` lines 199-257) on the environment entry `kv`: variables
`EVAL_HUB_MODEL_<ID>_URL` whose name does not contain the substring
"SERVER"; the skip-if-already-processed test uses the identifier derived
from the variable name and runs before the optional `_ID` override; an
unrecognized `_TYPE` falls back silently; an empty trimmed URL is skipped
silently. -/
def legacyStep (env : Env) (now : Nat)
    (acc : List (String × ModelServer) × List LoadWarning)
    (kv : String × String) :
    List (String × ModelServer) × List LoadWarning :=
  if strContains kv.1 "SERVER" then acc
  else
    match midOf "EVAL_HUB_MODEL_" "_URL" kv.1 with
    | none => acc
    | some mid =>
      let sid0 := strLower mid
      if hasKey acc.1 sid0 then acc
      else
        let url := strTrim kv.2
        if url = "" then acc
        else
          let sid := getenvD env ("EVAL_HUB_MODEL_" ++ mid ++ "_ID") sid0
          (dictInsert acc.1 sid (mkLegacyServer env now mid sid url), acc.2)

/-- Embedding of `ModelService._load_runtime_servers` (`model_service.py`
lines 45-259): the simple pattern, then one pass of the namespaced pattern
over the environment, then one pass of the legacy pattern. -/
def loadRuntimeServers (env : Env) (now : Nat) :
    List (String × ModelServer) × List LoadWarning :=
  env.foldl (legacyStep env now) (env.foldl (namespacedStep env now) (simpleLoad env now))

/-! ## Model Server Registry (`ModelService`) -/

/-- Modelled from the spec: `ModelServerRegistrationRequest` of
`models/model.py` (absent from the sources), with the fields read by
`register_server` (`model_service.py` lines 276-287).  A Python `None`
model list is an absent optional. -/
structure RegistrationRequest where
  server_id : String
  server_type : ModelType
  base_url : String
  api_key_required : Bool
  models : Option (List ServerModel)
  server_config : Option String
  status : ModelStatus
  tags : List String
deriving DecidableEq, Repr

/-- Modelled from the spec: `ModelServerUpdateRequest` of `models/model.py`
(absent from the sources), with the optional patch fields read by
`update_server` (`model_service.py` lines 391-403). -/
structure UpdateRequest where
  base_url : Option String
  api_key_required : Option Bool
  models : Option (List ServerModel)
  server_config : Option String
  status : Option ModelStatus
  tags : Option (List String)
deriving DecidableEq, Repr

/-- Errors raised (`ValueError`) by the registry mutation operations. -/
inductive RegistryError where
  | idExistsRegistered
  | idExistsRuntime
  | runtimeImmutable
deriving DecidableEq, Repr

/-- The mutable state of a `ModelService` instance: the two
identifier-keyed mappings and the lazy-initialization flag
(`_registered_servers`, `_runtime_servers`, `_initialized`). -/
structure RegistryState where
  registered : List (String × ModelServer)
  runtime : List (String × ModelServer)
  inited : Bool
deriving DecidableEq, Repr

/-- The state of a freshly constructed `ModelService`. -/
def initialState : RegistryState :=
  { registered := [], runtime := [], inited := false }

/-- Embedding of `ModelService._initialize` (`model_service.py` lines
32-43): a no-op when already initialized, otherwise loads the runtime
servers from the environment and sets the flag. -/
def ensureInit (env : Env) (now : Nat) (s : RegistryState) : RegistryState :=
  if s.inited then s
  else { s with runtime := (loadRuntimeServers env now).1, inited := true }

/-- The `ModelServer(...)` built by `register_server` (`model_service.py`
lines 276-287) from a registration request at time `now`. -/
def mkRegisteredServer (req : RegistrationRequest) (now : Nat) : ModelServer :=
  { server_id := req.server_id
    server_type := req.server_type
    base_url := req.base_url
    api_key_required := req.api_key_required
    models := req.models.getD []
    server_config := req.server_config
    status := req.status
    tags := req.tags
    created_at := now
    updated_at := now }

/-- Embedding of `ModelService.register_server` (`model_service.py` lines
261-298).  Returns the raised error or the returned server, paired with
the state in which the call leaves the service. -/
def registerServer (env : Env) (now : Nat) (req : RegistrationRequest)
    (s : RegistryState) : Except RegistryError ModelServer × RegistryState :=
  let s := ensureInit env now s
  if hasKey s.registered req.server_id then (.error .idExistsRegistered, s)
  else if hasKey s.runtime req.server_id then (.error .idExistsRuntime, s)
  else
    let server := mkRegisteredServer req now
    (.ok server, { s with registered := dictInsert s.registered req.server_id server })

/-- The field-by-field patch application of `update_server`
(`model_service.py` lines 391-405): provided fields replace, absent fields
are untouched; the update timestamp is always refreshed. -/
def applyUpdate (srv : ModelServer) (req : UpdateRequest) (now : Nat) : ModelServer :=
  { srv with
    base_url := req.base_url.getD srv.base_url
    api_key_required := req.api_key_required.getD srv.api_key_required
    models := req.models.getD srv.models
    server_config :=
      match req.server_config with
      | some c => some c
      | none => srv.server_config
    status := req.status.getD srv.status
    tags := req.tags.getD srv.tags
    updated_at := now }

/-- Embedding of `ModelService.update_server` (`model_service.py` lines
375-409): raises on a runtime identifier, returns `none` when the
identifier is not registered, otherwise patches the stored server in
place. -/
def updateServer (env : Env) (now : Nat) (sid : String) (req : UpdateRequest)
    (s : RegistryState) :
    Except RegistryError (Option ModelServer) × RegistryState :=
  let s := ensureInit env now s
  if hasKey s.runtime sid then (.error .runtimeImmutable, s)
  else
    match lookupSrv s.registered sid with
    | none => (.ok none, s)
    | some srv =>
      let srv := applyUpdate srv req now
      (.ok (some srv), { s with registered := dictInsert s.registered sid srv })

/-- Embedding of `ModelService.delete_server` (`model_service.py` lines
411-425): raises on a runtime identifier, otherwise removes the registered
entry and reports whether one existed. -/
def deleteServer (env : Env) (now : Nat) (sid : String) (s : RegistryState) :
    Except RegistryError Bool × RegistryState :=
  let s := ensureInit env now s
  if hasKey s.runtime sid then (.error .runtimeImmutable, s)
  else if hasKey s.registered sid then
    (.ok true, { s with registered := dictErase s.registered sid })
  else (.ok false, s)

/-- Embedding of `ModelService.reload_runtime_servers` (`model_service.py`
lines 427-431): clears the runtime mapping and reloads it from the
environment; the registered mapping and the initialization flag are
untouched. -/
def reloadRuntimeServers (env : Env) (now : Nat) (s : RegistryState) : RegistryState :=
  { s with runtime := (loadRuntimeServers env now).1 }

/-- One mutating registry operation, with the request payloads supplied by
the caller. -/
inductive Op where
  | reg (req : RegistrationRequest)
  | upd (sid : String) (req : UpdateRequest)
  | del (sid : String)
  | reload

/-- The state in which an operation invoked at time `now` leaves the
service (the raised error or returned value is discarded). -/
def applyOp (env : Env) (now : Nat) (op : Op) (s : RegistryState) : RegistryState :=
  match op with
  | .reg req => (registerServer env now req s).2
  | .upd sid req => (updateServer env now sid req s).2
  | .del sid => (deleteServer env now sid s).2
  | .reload => reloadRuntimeServers env now s

/-- The states a `ModelService` can reach from construction under a fixed
process environment, by any sequence of register, update, delete and
reload operations invoked at arbitrary times. -/
inductive Reachable (env : Env) : RegistryState → Prop where
  | init : Reachable env initialState
  | step (s : RegistryState) (op : Op) (now : Nat) :
      Reachable env s → Reachable env (applyOp env now op s)

/-- Normalization of the two load timestamps of a server, used to state in
what sense two loads of the same environment agree. -/
def setSrvTimes (t : Nat) (srv : ModelServer) : ModelServer :=
  { srv with created_at := t, updated_at := t }

/-- `setSrvTimes` on the value of one mapping entry. -/
def setEntryTimes (t : Nat) (p : String × ModelServer) : String × ModelServer :=
  (p.1, setSrvTimes t p.2)

/-- The inductive invariant of the registry: no registered identifier is an
environment-derived runtime identifier; once initialized, the runtime
mapping holds exactly the environment-derived identifiers; before
initialization nothing is registered. -/
def RegInv (env : Env) (s : RegistryState) : Prop :=
  (∀ id, hasKey s.registered id = true → hasKey (loadRuntimeServers env 0).1 id = false)
  ∧ (s.inited = true →
      ∀ id, hasKey s.runtime id = hasKey (loadRuntimeServers env 0).1 id)
  ∧ (s.inited = false → s.registered = [])

/-- Concrete environment: the simple pattern (identifier overridden to x)
together with a legacy variable whose companion `_ID` variable also
overrides its identifier to x. -/
def envOverride : Env :=
  [("MODEL_SERVER_URL", "http://a:8000"), ("MODEL_SERVER_ID", "x"),
   ("EVAL_HUB_MODEL_FOO_URL", "http://b:9000"), ("EVAL_HUB_MODEL_FOO_ID", "x")]

/-- Concrete environment: a legacy-form variable whose identifier contains
the substring SERVER without matching the namespaced pattern. -/
def envObs : Env := [("EVAL_HUB_MODEL_OBSERVER_URL", "http://x:1")]

/-- Concrete environment: one simple-pattern server. -/
def envSimple : Env := [("MODEL_SERVER_URL", "http://a:8000")]

/-- The server the simple pattern produces from `envSimple` at time 0. -/
def simpleEnvServer : ModelServer :=
  { server_id := "default"
    server_type := .openai_compatible
    base_url := "http://a:8000"
    api_key_required := true
    models := [mkServerModel "default"]
    server_config := none
    status := .active
    tags := ["runtime"]
    created_at := 0
    updated_at := 0 }

/-- A concrete registration request for witnesses. -/
def sampleRequest : RegistrationRequest :=
  { server_id := "srv1"
    server_type := .openai_compatible
    base_url := "http://reg:7000"
    api_key_required := false
    models := none
    server_config := none
    status := .active
    tags := [] }

/-- A concrete initialized registry state holding one runtime server,
for witnesses. -/
def sampleRuntimeState : RegistryState :=
  { registered := [], runtime := [("rt", simpleEnvServer)], inited := true }

/-- A concrete initialized registry state with empty namespaces, for
witnesses. -/
def emptyInitedState : RegistryState :=
  { registered := [], runtime := [], inited := true }

/-- A concrete update request patching nothing, for witnesses. -/
def emptyPatch : UpdateRequest :=
  { base_url := none, api_key_required := none, models := none,
    server_config := none, status := none, tags := none }

/-- The runtime markings every environment-derived server carries: API key
required, active, tagged runtime, with every contained model active and
tagged runtime. -/
def RuntimeTagged (srv : ModelServer) : Prop :=
  srv.api_key_required = true ∧ srv.status = .active ∧ srv.tags = ["runtime"]
  ∧ ∀ m ∈ srv.models, m.status = ModelStatus.active ∧ m.tags = ["runtime"]

/-! ## Status aggregation: supporting lemmas and claim theorems -/

/-- The modelled aggregation engine reproduces every concrete case asserted
by the unit tests of `TestResponseBuilderStatusLogic`
(`tests/unit/test_response_builder.py`): empty tally with zero total,
mixed tally with a running result, completed/pending tally, all completed,
all failed, partial failure, and all cancelled. -/
theorem aggregation_matches_unit_tests :
    determineOverallStatus (fun _ => 0) 0 = .pending
    ∧ determineOverallStatus
        (fun st => match st with
          | .completed => 2 | .running => 1 | .pending => 1 | _ => 0) 4 = .running
    ∧ determineOverallStatus
        (fun st => match st with
          | .completed => 2 | .pending => 1 | _ => 0) 3 = .pending
    ∧ determineOverallStatus
        (fun st => match st with | .completed => 3 | _ => 0) 3 = .completed
    ∧ determineOverallStatus
        (fun st => match st with | .failed => 3 | _ => 0) 3 = .failed
    ∧ determineOverallStatus
        (fun st => match st with
          | .completed => 2 | .failed => 1 | _ => 0) 3 = .completed
    ∧ determineOverallStatus
        (fun st => match st with | .cancelled => 2 | _ => 0) 2 = .completed := by
  exact ⟨rfl, rfl, rfl, rfl, rfl, rfl, rfl⟩

/-- C2 counterexample: for the collection [failed, failed] with expected
total 2 (no running and no pending result), the derived overall status is
not completed — the engine, as pinned by the repository unit test
`test_determine_overall_status_all_failed`, reports failed. -/
theorem all_failed_not_completed_cx :
    determineOverallStatus (countResultsByStatus
      [EvaluationStatus.failed, EvaluationStatus.failed]) 2 = .failed
    ∧ ¬ determineOverallStatus (countResultsByStatus
      [EvaluationStatus.failed, EvaluationStatus.failed]) 2 = .completed := by
  exact ⟨rfl, by decide⟩

/-- C2 (amended): for every non-empty collection of results with no
running and no pending result and a nonzero expected total, the derived
overall status is completed — except when the failed count equals the
expected total (in particular when every result is failed), in which case
it is failed. -/
theorem terminal_mix_overall_status (results : List EvaluationStatus) (total : Nat)
    (_hne : results ≠ []) (hrun : results.count .running = 0)
    (hpend : results.count .pending = 0) (htot : total ≠ 0) :
    (results.count .failed ≠ total →
      determineOverallStatus (countResultsByStatus results) total = .completed)
    ∧ (results.count .failed = total →
      determineOverallStatus (countResultsByStatus results) total = .failed) := by
  unfold determineOverallStatus countResultsByStatus
  refine ⟨fun h => ?_, fun h => ?_⟩ <;> simp [htot, hrun, hpend, h]

/-- C2 witness: the amended statement at the concrete collections
[failed, completed] (a terminal mix, overall completed) and [failed]
(all failed, overall failed). -/
theorem terminal_mix_overall_status_witness :
    determineOverallStatus (countResultsByStatus
      [EvaluationStatus.failed, EvaluationStatus.completed]) 2 = .completed
    ∧ determineOverallStatus (countResultsByStatus [EvaluationStatus.failed]) 1 = .failed := by
  exact ⟨(terminal_mix_overall_status [.failed, .completed] 2 (by decide) (by decide)
      (by decide) (by decide)).1 (by decide),
    (terminal_mix_overall_status [.failed] 1 (by decide) (by decide)
      (by decide) (by decide)).2 (by decide)⟩

/-- C3: the overall-status derivation applies ordered rules, first match
wins — a zero expected total yields pending; otherwise any running result
yields running regardless of the other statuses; otherwise any pending
result yields pending. -/
theorem status_rules_first_match (counts : EvaluationStatus → Nat) (total : Nat) :
    (total = 0 → determineOverallStatus counts total = .pending)
    ∧ (total ≠ 0 → 0 < counts .running →
        determineOverallStatus counts total = .running)
    ∧ (total ≠ 0 → counts .running = 0 → 0 < counts .pending →
        determineOverallStatus counts total = .pending) := by
  unfold determineOverallStatus
  refine ⟨fun h => ?_, fun h hr => ?_, fun h hr hp => ?_⟩
  · simp [h]
  · simp [h, hr]
  · simp [h, hr, hp]

/-! ## Mapping and loader lemmas -/

/-- A key is in an updated mapping exactly when it is the assigned key or
was already present. -/
theorem hasKey_dictInsert (m : List (String × ModelServer)) (k k' : String)
    (v : ModelServer) :
    hasKey (dictInsert m k v) k' = true ↔ (hasKey m k' = true ∨ k' = k) := by
  induction m with
  | nil =>
    by_cases h : k = k' <;> simp [dictInsert, hasKey, h]
    exact fun hh => h hh.symm
  | cons p rest ih =>
    by_cases hpk : p.1 = k <;> by_cases hpk' : p.1 = k' <;> by_cases hkk : k' = k <;>
      simp_all [dictInsert, hasKey]

/-- Assigning a key then looking it up yields the assigned value. -/
theorem lookupSrv_dictInsert_self (m : List (String × ModelServer)) (k : String)
    (v : ModelServer) :
    lookupSrv (dictInsert m k v) k = some v := by
  induction m with
  | nil => simp [dictInsert, lookupSrv]
  | cons p rest ih =>
    by_cases hpk : p.1 = k <;> simp [dictInsert, lookupSrv, hpk]
    exact ih

/-- Deletion introduces no keys. -/
theorem hasKey_dictErase (m : List (String × ModelServer)) (k k' : String) :
    hasKey (dictErase m k) k' = true → hasKey m k' = true := by
  induction m with
  | nil => simp [dictErase]
  | cons p rest ih =>
    by_cases hpk : p.1 = k <;> by_cases hpk' : p.1 = k' <;>
      simp [dictErase, hasKey, hpk, hpk'] <;> tauto

/-- A successful lookup means the key is present. -/
theorem lookupSrv_hasKey (m : List (String × ModelServer)) (k : String)
    (srv : ModelServer) :
    lookupSrv m k = some srv → hasKey m k = true := by
  induction m with
  | nil => simp [lookupSrv, hasKey]
  | cons p rest ih =>
    by_cases hpk : p.1 = k <;> simp [lookupSrv, hasKey, hpk]
    exact ih

/-- Normalizing timestamps does not change the keys of a mapping. -/
theorem hasKey_map_setEntryTimes (t : Nat) (m : List (String × ModelServer))
    (k : String) :
    hasKey (m.map (setEntryTimes t)) k = hasKey m k := by
  induction m with
  | nil => rfl
  | cons p rest ih =>
    by_cases hpk : p.1 = k <;> simp [hasKey, setEntryTimes, hpk]
    exact ih

/-- Assignment commutes with timestamp normalization. -/
theorem dictInsert_map_setEntryTimes (t : Nat) (m : List (String × ModelServer))
    (k : String) (v : ModelServer) :
    dictInsert (m.map (setEntryTimes t)) k (setSrvTimes t v)
      = (dictInsert m k v).map (setEntryTimes t) := by
  induction m with
  | nil => simp [dictInsert, setEntryTimes]
  | cons p rest ih =>
    by_cases hpk : p.1 = k <;> simp [dictInsert, setEntryTimes, hpk]
    exact ih

/-- Normalizing timestamps twice keeps only the second time. -/
theorem setSrvTimes_setSrvTimes (t1 t2 : Nat) (srv : ModelServer) :
    setSrvTimes t2 (setSrvTimes t1 srv) = setSrvTimes t2 srv := rfl

/-- The simple pattern at time `t` produces the time-0 outcome with both
timestamps set to `t`, and the same warnings. -/
theorem simpleLoad_times (env : Env) (t : Nat) :
    simpleLoad env t
      = ((simpleLoad env 0).1.map (setEntryTimes t), (simpleLoad env 0).2) := by
  unfold simpleLoad
  cases h : getenv env "MODEL_SERVER_URL" with
  | none => rfl
  | some u =>
    by_cases h1 : u = ""
    · simp [h1]
    · by_cases h2 : strTrim u = ""
      · simp [h1, h2]
      · cases hpt :
          parseModelType (strLower (getenvD env "MODEL_SERVER_TYPE" "openai-compatible")) <;>
          simp [h1, h2, hpt, setEntryTimes, setSrvTimes]

/-- One namespaced-pattern iteration at time `t` on a time-normalized
accumulator produces the time-normalized time-0 iteration. -/
theorem namespacedStep_times (env : Env) (t : Nat)
    (acc : List (String × ModelServer) × List LoadWarning) (kv : String × String) :
    namespacedStep env t (acc.1.map (setEntryTimes t), acc.2) kv
      = ((namespacedStep env 0 acc kv).1.map (setEntryTimes t),
         (namespacedStep env 0 acc kv).2) := by
  unfold namespacedStep
  cases hm : midOf "EVAL_HUB_MODEL_SERVER_" "_URL" kv.1 with
  | none => rfl
  | some mid =>
    by_cases hu : strTrim kv.2 = ""
    · simp [hu]
    · cases hpt :
        parseModelType (strLower (getenvD env
          ("EVAL_HUB_MODEL_SERVER_" ++ mid ++ "_TYPE") "openai-compatible")) <;>
        simp [hu, hpt, ← dictInsert_map_setEntryTimes, setSrvTimes]

/-- One legacy-pattern iteration at time `t` on a time-normalized
accumulator produces the time-normalized time-0 iteration. -/
theorem legacyStep_times (env : Env) (t : Nat)
    (acc : List (String × ModelServer) × List LoadWarning) (kv : String × String) :
    legacyStep env t (acc.1.map (setEntryTimes t), acc.2) kv
      = ((legacyStep env 0 acc kv).1.map (setEntryTimes t),
         (legacyStep env 0 acc kv).2) := by
  unfold legacyStep
  by_cases hs : strContains kv.1 "SERVER"
  · simp [hs]
  · simp only [hs, Bool.false_eq_true, if_neg, ite_false]
    cases hm : midOf "EVAL_HUB_MODEL_" "_URL" kv.1 with
    | none => rfl
    | some mid =>
      by_cases hk : hasKey acc.1 (strLower mid)
      · simp [hasKey_map_setEntryTimes, hk]
      · by_cases hu : strTrim kv.2 = "" <;>
          simp [hasKey_map_setEntryTimes, hk, hu, ← dictInsert_map_setEntryTimes,
            setSrvTimes, mkLegacyServer]

/-- A fold of a per-entry step commutes with timestamp normalization
whenever the step does. -/
theorem foldl_times (f g : (List (String × ModelServer) × List LoadWarning) →
      (String × String) → List (String × ModelServer) × List LoadWarning)
    (t : Nat)
    (hfg : ∀ acc kv, f (acc.1.map (setEntryTimes t), acc.2) kv
      = ((g acc kv).1.map (setEntryTimes t), (g acc kv).2)) :
    ∀ (l : List (String × String)) (acc : List (String × ModelServer) × List LoadWarning),
      l.foldl f (acc.1.map (setEntryTimes t), acc.2)
        = ((l.foldl g acc).1.map (setEntryTimes t), (l.foldl g acc).2) := by
  intro l
  induction l with
  | nil => intro acc; rfl
  | cons kv rest ih =>
    intro acc
    rw [List.foldl_cons, List.foldl_cons, hfg]
    exact ih (g acc kv)

/-- The whole loader at time `t` produces the time-0 mapping with both
timestamps of every server set to `t`, and the same warnings: the load
outcome is a function of the environment alone, except for the recorded
load time. -/
theorem loadRuntimeServers_times (env : Env) (t : Nat) :
    loadRuntimeServers env t
      = ((loadRuntimeServers env 0).1.map (setEntryTimes t),
         (loadRuntimeServers env 0).2) := by
  unfold loadRuntimeServers
  rw [simpleLoad_times env t,
    foldl_times _ _ t (namespacedStep_times env t) env (simpleLoad env 0),
    foldl_times _ _ t (legacyStep_times env t) env
      (env.foldl (namespacedStep env 0) (simpleLoad env 0))]

/-- The set of environment-derived identifiers does not depend on the load
time. -/
theorem hasKey_loadRuntimeServers (env : Env) (t : Nat) (k : String) :
    hasKey (loadRuntimeServers env t).1 k = hasKey (loadRuntimeServers env 0).1 k := by
  rw [loadRuntimeServers_times]
  exact hasKey_map_setEntryTimes t (loadRuntimeServers env 0).1 k

/-- C3 witness: the three rules at concrete tallies. -/
theorem status_rules_first_match_witness :
    determineOverallStatus (fun _ => 0) 0 = .pending
    ∧ determineOverallStatus (countResultsByStatus
        [EvaluationStatus.running, EvaluationStatus.failed]) 2 = .running
    ∧ determineOverallStatus (countResultsByStatus
        [EvaluationStatus.pending, EvaluationStatus.completed]) 2 = .pending := by
  exact ⟨(status_rules_first_match (fun _ => 0) 0).1 rfl,
    (status_rules_first_match _ 2).2.1 (by decide) (by decide),
    (status_rules_first_match _ 2).2.2 (by decide) (by decide) (by decide)⟩

/-! ## Environment loader: claim theorems -/

set_option maxRecDepth 20000 in
/-- C6 counterexample: in `envOverride` the simple pattern produces the
entry x with base URL http://a:8000, the namespaced pattern leaves it
untouched, yet after the legacy pass the entry x holds the legacy server
with base URL http://b:9000 — the legacy variable EVAL_HUB_MODEL_FOO_URL,
whose companion `_ID` variable overrides its identifier to x, has replaced
the simple-pattern entry. -/
theorem legacy_replaces_on_override_cx :
    ((envOverride.foldl (namespacedStep envOverride 0)
        (simpleLoad envOverride 0)).1.map (fun p => (p.1, p.2.base_url))
      = [("x", "http://a:8000")])
    ∧ ((loadRuntimeServers envOverride 0).1.map (fun p => (p.1, p.2.base_url))
      = [("x", "http://b:9000")]) := by
  constructor <;> decide

/-- C6 (amended): the legacy pattern is skipped for any variable whose
identifier derived from the variable name is already present in the result
map; the skip check precedes the companion `_ID` override, so it does not
protect entries whose identifier is reached only through the override. -/
theorem legacy_skip_derived_id (env : Env) (now : Nat)
    (acc : List (String × ModelServer) × List LoadWarning) (k v mid : String)
    (hmid : midOf "EVAL_HUB_MODEL_" "_URL" k = some mid)
    (hkey : hasKey acc.1 (strLower mid) = true) :
    legacyStep env now acc (k, v) = acc := by
  unfold legacyStep
  by_cases hs : strContains k "SERVER"
  · simp [hs]
  · simp [hs, hmid, hkey]

set_option maxRecDepth 20000 in
/-- C6 witness: the amended skip at a concrete accumulator already holding
the derived identifier m1. -/
theorem legacy_skip_derived_id_witness :
    legacyStep [] 0 ([("m1", simpleEnvServer)], [])
      ("EVAL_HUB_MODEL_M1_URL", "http://b:9000")
      = ([("m1", simpleEnvServer)], []) :=
  legacy_skip_derived_id [] 0 ([("m1", simpleEnvServer)], [])
    "EVAL_HUB_MODEL_M1_URL" "http://b:9000" "M1" (by decide) (by decide)

set_option maxRecDepth 20000 in
/-- C7 counterexample: with a fixed environment producing one runtime
server, reloading at time 0 and then again at time 1 yields a different
runtime mapping — the creation/update timestamps record each load's time,
so the mappings are not identical with all fields included. -/
theorem reload_not_identical_cx :
    (reloadRuntimeServers envSimple 1
        (reloadRuntimeServers envSimple 0 initialState)).runtime
      ≠ (reloadRuntimeServers envSimple 0 initialState).runtime := by
  decide

/-- C7 (amended): under a fixed, unchanged environment, a second reload
reproduces exactly the runtime mapping of the first reload with every
server's creation/update timestamps set to the second load's time; all
other fields, the identifiers and their order are identical, and the
mappings are identical whenever the two loads read the same clock value. -/
theorem reload_idempotent_mod_timestamps (env : Env) (t1 t2 : Nat)
    (s : RegistryState) :
    (reloadRuntimeServers env t2 (reloadRuntimeServers env t1 s)).runtime
      = ((reloadRuntimeServers env t1 s).runtime).map (setEntryTimes t2) := by
  show (loadRuntimeServers env t2).1 = ((loadRuntimeServers env t1).1).map (setEntryTimes t2)
  rw [loadRuntimeServers_times env t2, loadRuntimeServers_times env t1, List.map_map]
  rfl

set_option maxRecDepth 20000 in
/-- C8 counterexample: the variable EVAL_HUB_MODEL_OBSERVER_URL is of the
legacy form, is not matched by the namespaced pattern's stricter prefix,
carries a non-empty trimmed value, and its identifier is in no result map
(the rest of the environment is empty) — yet the loader produces no server
at all, because the legacy pattern excludes every variable containing the
substring SERVER anywhere in its name. -/
theorem legacy_observer_skipped_cx :
    strStarts "EVAL_HUB_MODEL_OBSERVER_URL" "EVAL_HUB_MODEL_" = true
    ∧ strEnds "EVAL_HUB_MODEL_OBSERVER_URL" "_URL" = true
    ∧ strStarts "EVAL_HUB_MODEL_OBSERVER_URL" "EVAL_HUB_MODEL_SERVER_" = false
    ∧ ¬ strTrim "http://x:1" = ""
    ∧ (loadRuntimeServers envObs 0).1 = [] := by
  refine ⟨by decide, by decide, by decide, by decide, by decide⟩

/-- C8 (amended): for every environment variable of the legacy form
EVAL_HUB_MODEL_(ID)_URL whose name does not contain the substring SERVER
anywhere, whose value is non-empty after trimming and whose derived
identifier is not already in the result map, the legacy pattern produces a
server with exactly one model named after the (possibly `_ID`-overridden)
server identifier. -/
theorem legacy_single_model (env : Env) (now : Nat)
    (acc : List (String × ModelServer) × List LoadWarning) (k v mid sid : String)
    (hs : strContains k "SERVER" = false)
    (hmid : midOf "EVAL_HUB_MODEL_" "_URL" k = some mid)
    (hkey : hasKey acc.1 (strLower mid) = false)
    (hurl : ¬ strTrim v = "")
    (hsid : sid = getenvD env ("EVAL_HUB_MODEL_" ++ mid ++ "_ID") (strLower mid)) :
    legacyStep env now acc (k, v)
      = (dictInsert acc.1 sid (mkLegacyServer env now mid sid (strTrim v)), acc.2)
    ∧ (mkLegacyServer env now mid sid (strTrim v)).models = [mkServerModel sid]
    ∧ (mkServerModel sid).model_name = sid := by
  subst hsid
  refine ⟨?_, rfl, rfl⟩
  unfold legacyStep
  simp [hs, hmid, hkey, hurl]

set_option maxRecDepth 20000 in
/-- C8 witness: the amended statement at the concrete legacy variable
EVAL_HUB_MODEL_M1_URL in an empty accumulator. -/
theorem legacy_single_model_witness :
    legacyStep [("EVAL_HUB_MODEL_M1_URL", "http://b:9000")] 0 ([], [])
      ("EVAL_HUB_MODEL_M1_URL", "http://b:9000")
      = ([("m1", mkLegacyServer [("EVAL_HUB_MODEL_M1_URL", "http://b:9000")] 0
            "M1" "m1" "http://b:9000")], [])
    ∧ (mkLegacyServer [("EVAL_HUB_MODEL_M1_URL", "http://b:9000")] 0
        "M1" "m1" "http://b:9000").models = [mkServerModel "m1"] := by
  have h := legacy_single_model [("EVAL_HUB_MODEL_M1_URL", "http://b:9000")] 0
    ([], []) "EVAL_HUB_MODEL_M1_URL" "http://b:9000" "M1" "m1"
    (by decide) (by decide) (by decide) (by decide) (by decide)
  exact ⟨h.1, h.2.1⟩

/-- Membership in an updated mapping comes from the original mapping or is
the assigned binding. -/
theorem mem_dictInsert (m : List (String × ModelServer)) (k : String)
    (v : ModelServer) (p : String × ModelServer) :
    p ∈ dictInsert m k v → p ∈ m ∨ p = (k, v) := by
  induction m with
  | nil => simp [dictInsert]
  | cons q rest ih =>
    by_cases hqk : q.1 = k <;> simp [dictInsert, hqk] <;> tauto

/-- A fold preserves any property its step preserves. -/
theorem foldl_preserve {α β : Type} (f : α → β → α) (P : α → Prop)
    (hstep : ∀ a b, P a → P (f a b)) :
    ∀ (l : List β) (a : α), P a → P (l.foldl f a) := by
  intro l
  induction l with
  | nil => intro a ha; exact ha
  | cons b rest ih => intro a ha; exact ih (f a b) (hstep a b ha)

/-- Every model built by `mkServerModel` is active and tagged runtime. -/
theorem mkServerModel_tagged (names : List String) (m : ServerModel)
    (hm : m ∈ names.map mkServerModel) :
    m.status = ModelStatus.active ∧ m.tags = ["runtime"] := by
  rcases List.mem_map.1 hm with ⟨n, _, rfl⟩
  exact ⟨rfl, rfl⟩

/-- Every server produced by the simple pattern carries the runtime
markings. -/
theorem runtimeTagged_simpleLoad (env : Env) (now : Nat) :
    ∀ p ∈ (simpleLoad env now).1, RuntimeTagged p.2 := by
  intro p hp
  unfold simpleLoad at hp
  cases h : getenv env "MODEL_SERVER_URL" with
  | none => rw [h] at hp; simp at hp
  | some u =>
    rw [h] at hp
    by_cases h1 : u = ""
    · simp [h1] at hp
    · by_cases h2 : strTrim u = ""
      · simp [h1, h2] at hp
      · simp only [h1, h2, if_neg, ite_false] at hp
        cases hpt : parseModelType (strLower (getenvD env "MODEL_SERVER_TYPE"
            "openai-compatible")) <;>
          rw [hpt] at hp <;> simp at hp <;> rw [hp] <;>
          exact ⟨rfl, rfl, rfl, fun m hm => mkServerModel_tagged _ m hm⟩

/-- One namespaced-pattern iteration preserves the runtime markings of
every mapping entry. -/
theorem runtimeTagged_namespacedStep (env : Env) (now : Nat)
    (acc : List (String × ModelServer) × List LoadWarning) (kv : String × String)
    (hacc : ∀ p ∈ acc.1, RuntimeTagged p.2) :
    ∀ p ∈ (namespacedStep env now acc kv).1, RuntimeTagged p.2 := by
  intro p hp
  unfold namespacedStep at hp
  cases hm : midOf "EVAL_HUB_MODEL_SERVER_" "_URL" kv.1 with
  | none => rw [hm] at hp; exact hacc p hp
  | some mid =>
    rw [hm] at hp
    by_cases hu : strTrim kv.2 = ""
    · simp [hu] at hp; exact hacc p hp
    · simp only [hu, if_neg, ite_false] at hp
      cases hpt : parseModelType (strLower (getenvD env
          ("EVAL_HUB_MODEL_SERVER_" ++ mid ++ "_TYPE") "openai-compatible")) <;>
        rw [hpt] at hp <;> simp at hp <;>
        rcases mem_dictInsert _ _ _ p hp with hin | rfl
      · exact hacc p hin
      · exact ⟨rfl, rfl, rfl, fun m hm => mkServerModel_tagged _ m hm⟩
      · exact hacc p hin
      · exact ⟨rfl, rfl, rfl, fun m hm => mkServerModel_tagged _ m hm⟩

/-- One legacy-pattern iteration preserves the runtime markings of every
mapping entry. -/
theorem runtimeTagged_legacyStep (env : Env) (now : Nat)
    (acc : List (String × ModelServer) × List LoadWarning) (kv : String × String)
    (hacc : ∀ p ∈ acc.1, RuntimeTagged p.2) :
    ∀ p ∈ (legacyStep env now acc kv).1, RuntimeTagged p.2 := by
  intro p hp
  unfold legacyStep at hp
  by_cases hs : strContains kv.1 "SERVER"
  · simp [hs] at hp; exact hacc p hp
  · simp only [hs, if_neg, ite_false, Bool.false_eq_true] at hp
    cases hm : midOf "EVAL_HUB_MODEL_" "_URL" kv.1 with
    | none => rw [hm] at hp; exact hacc p hp
    | some mid =>
      rw [hm] at hp
      by_cases hk : hasKey acc.1 (strLower mid)
      · simp [hk] at hp; exact hacc p hp
      · by_cases hu : strTrim kv.2 = ""
        · simp [hk, hu] at hp; exact hacc p hp
        · simp [hk, hu] at hp
          rcases mem_dictInsert _ _ _ p hp with hin | rfl
          · exact hacc p hin
          · exact ⟨rfl, rfl, rfl, fun m hm => by
              simp [mkLegacyServer] at hm; rw [hm]; exact ⟨rfl, rfl⟩⟩

/-- C9: every server produced by the environment loader, under any of the
three patterns, requires an API key, is active and is tagged exactly
runtime, and every model it contains is active and tagged exactly
runtime. -/
theorem runtime_servers_always_tagged (env : Env) (now : Nat) :
    ∀ p ∈ (loadRuntimeServers env now).1, RuntimeTagged p.2 := by
  unfold loadRuntimeServers
  refine foldl_preserve _ (fun acc => ∀ p ∈ acc.1, RuntimeTagged p.2)
    (fun acc kv h => runtimeTagged_legacyStep env now acc kv h) env _
    (foldl_preserve _ (fun acc => ∀ p ∈ acc.1, RuntimeTagged p.2)
      (fun acc kv h => runtimeTagged_namespacedStep env now acc kv h) env _
      (runtimeTagged_simpleLoad env now))

set_option maxRecDepth 20000 in
/-- C9 witness: the server loaded from `envSimple` is in the loader output
and carries the runtime markings. -/
theorem runtime_servers_always_tagged_witness :
    ("default", simpleEnvServer) ∈ (loadRuntimeServers envSimple 0).1
    ∧ RuntimeTagged simpleEnvServer := by
  have hm : ("default", simpleEnvServer) ∈ (loadRuntimeServers envSimple 0).1 := by
    decide
  exact ⟨hm, runtime_servers_always_tagged envSimple 0 ("default", simpleEnvServer) hm⟩

/-- C10: when MODEL_SERVER_URL is set to a value that is empty after
trimming, the simple pattern produces no server and emits no warning, and
loading proceeds to the other two patterns from an empty map; by contrast
the namespaced pattern emits an empty-URL warning for an empty trimmed
value. -/
theorem simple_empty_url_silent :
    (∀ (env : Env) (now : Nat) (v : String),
      getenv env "MODEL_SERVER_URL" = some v → strTrim v = "" →
      simpleLoad env now = ([], [])
      ∧ loadRuntimeServers env now
          = env.foldl (legacyStep env now) (env.foldl (namespacedStep env now) ([], [])))
    ∧ (∀ (env : Env) (now : Nat)
        (acc : List (String × ModelServer) × List LoadWarning) (v : String),
      strTrim v = "" →
      namespacedStep env now acc ("EVAL_HUB_MODEL_SERVER_A_URL", v)
        = (acc.1, acc.2 ++ [.emptyUrl "a"])) := by
  constructor
  · intro env now v h hv
    have h0 : simpleLoad env now = ([], []) := by
      unfold simpleLoad
      rw [h]
      by_cases h1 : v = "" <;> simp [h1, hv]
    exact ⟨h0, by unfold loadRuntimeServers; rw [h0]⟩
  · intro env now acc v hv
    unfold namespacedStep
    rw [show midOf "EVAL_HUB_MODEL_SERVER_" "_URL" "EVAL_HUB_MODEL_SERVER_A_URL"
      = some "A" from by decide]
    simp [hv, show strLower "A" = "a" from by decide]

set_option maxRecDepth 20000 in
/-- C10 witness: both parts at concrete whitespace values. -/
theorem simple_empty_url_silent_witness :
    simpleLoad [("MODEL_SERVER_URL", "   ")] 0 = ([], [])
    ∧ namespacedStep [] 0 ([], []) ("EVAL_HUB_MODEL_SERVER_A_URL", " ")
        = ([], [LoadWarning.emptyUrl "a"]) :=
  ⟨(simple_empty_url_silent.1 [("MODEL_SERVER_URL", "   ")] 0 "   "
      (by decide) (by decide)).1,
    simple_empty_url_silent.2 [] 0 ([], []) " " (by decide)⟩

/-! ## Registry: invariant lemmas and claim theorems -/

/-- Initialization is a no-op on an already initialized service. -/
theorem ensureInit_of_inited (env : Env) (now : Nat) (s : RegistryState)
    (h : s.inited = true) : ensureInit env now s = s := by
  simp [ensureInit, h]

/-- Initialization always leaves the service initialized. -/
theorem ensureInit_inited (env : Env) (now : Nat) (s : RegistryState) :
    (ensureInit env now s).inited = true := by
  by_cases h : s.inited <;> simp [ensureInit, h]

/-- The invariant holds at construction. -/
theorem regInv_initial (env : Env) : RegInv env initialState := by
  refine ⟨?_, ?_, ?_⟩
  · intro id h
    simp [initialState, hasKey] at h
  · intro h
    simp [initialState] at h
  · intro _
    rfl

/-- Initialization preserves the invariant. -/
theorem regInv_ensureInit (env : Env) (now : Nat) (s : RegistryState)
    (h : RegInv env s) : RegInv env (ensureInit env now s) := by
  by_cases hi : s.inited
  · rw [ensureInit_of_inited env now s hi]
    exact h
  · have hb : s.inited = false := by simpa using hi
    simp only [ensureInit, hb, Bool.false_eq_true, if_false]
    refine ⟨?_, ?_, ?_⟩
    · intro id hk
      exact h.1 id hk
    · intro _ id
      exact hasKey_loadRuntimeServers env now id
    · intro hc
      simp at hc

/-- Registration preserves the invariant. -/
theorem regInv_register (env : Env) (now : Nat) (req : RegistrationRequest)
    (s : RegistryState) (h : RegInv env s) :
    RegInv env (registerServer env now req s).2 := by
  have h' := regInv_ensureInit env now s h
  have hi := ensureInit_inited env now s
  unfold registerServer
  by_cases h1 : hasKey (ensureInit env now s).registered req.server_id
  · simp only [h1, ite_true]
    exact h'
  · by_cases h2 : hasKey (ensureInit env now s).runtime req.server_id
    · simp only [h1, h2, Bool.false_eq_true, if_false, ite_true]
      exact h'
    · simp only [h1, h2, Bool.false_eq_true, if_false]
      refine ⟨?_, ?_, ?_⟩
      · intro id hk
        rcases (hasKey_dictInsert _ _ _ _).1 hk with hk' | hk'
        · exact h'.1 id hk'
        · subst hk'
          have hl := h'.2.1 hi req.server_id
          rw [hl] at h2
          simpa using h2
      · intro _ id
        exact h'.2.1 hi id
      · intro hc
        rw [show ({ ensureInit env now s with
            registered := dictInsert (ensureInit env now s).registered req.server_id
              (mkRegisteredServer req now) } : RegistryState).inited
          = (ensureInit env now s).inited from rfl, hi] at hc
        exact absurd hc (by simp)

/-- Update preserves the invariant. -/
theorem regInv_update (env : Env) (now : Nat) (sid : String) (req : UpdateRequest)
    (s : RegistryState) (h : RegInv env s) :
    RegInv env (updateServer env now sid req s).2 := by
  have h' := regInv_ensureInit env now s h
  have hi := ensureInit_inited env now s
  unfold updateServer
  by_cases h1 : hasKey (ensureInit env now s).runtime sid
  · simp only [h1, ite_true]
    exact h'
  · simp only [h1, Bool.false_eq_true, if_false]
    cases hl : lookupSrv (ensureInit env now s).registered sid with
    | none => exact h'
    | some srv =>
      refine ⟨?_, ?_, ?_⟩
      · intro id hk
        rcases (hasKey_dictInsert _ _ _ _).1 hk with hk' | hk'
        · exact h'.1 id hk'
        · subst hk'
          exact h'.1 id (lookupSrv_hasKey _ _ _ hl)
      · intro _ id
        exact h'.2.1 hi id
      · intro hc
        rw [show ({ ensureInit env now s with
            registered := dictInsert (ensureInit env now s).registered sid
              (applyUpdate srv req now) } : RegistryState).inited
          = (ensureInit env now s).inited from rfl, hi] at hc
        exact absurd hc (by simp)

/-- Deletion preserves the invariant. -/
theorem regInv_delete (env : Env) (now : Nat) (sid : String) (s : RegistryState)
    (h : RegInv env s) : RegInv env (deleteServer env now sid s).2 := by
  have h' := regInv_ensureInit env now s h
  have hi := ensureInit_inited env now s
  unfold deleteServer
  by_cases h1 : hasKey (ensureInit env now s).runtime sid
  · simp only [h1, ite_true]
    exact h'
  · by_cases h2 : hasKey (ensureInit env now s).registered sid
    · simp only [h1, h2, Bool.false_eq_true, if_false, ite_true]
      refine ⟨?_, ?_, ?_⟩
      · intro id hk
        exact h'.1 id (hasKey_dictErase _ _ _ hk)
      · intro _ id
        exact h'.2.1 hi id
      · intro hc
        rw [show ({ ensureInit env now s with
            registered := dictErase (ensureInit env now s).registered sid } :
              RegistryState).inited = (ensureInit env now s).inited from rfl, hi] at hc
        exact absurd hc (by simp)
    · simp only [h1, h2, Bool.false_eq_true, if_false]
      exact h'

/-- Reload preserves the invariant. -/
theorem regInv_reload (env : Env) (now : Nat) (s : RegistryState)
    (h : RegInv env s) : RegInv env (reloadRuntimeServers env now s) := by
  refine ⟨h.1, ?_, h.2.2⟩
  intro _ id
  exact hasKey_loadRuntimeServers env now id

/-- Every reachable state satisfies the invariant. -/
theorem regInv_reachable (env : Env) (s : RegistryState) (h : Reachable env s) :
    RegInv env s := by
  induction h with
  | init => exact regInv_initial env
  | step s' op now _ ih =>
    cases op with
    | reg req => exact regInv_register env now req s' ih
    | upd sid req => exact regInv_update env now sid req s' ih
    | del sid => exact regInv_delete env now sid s' ih
    | reload => exact regInv_reload env now s' ih

/-- C1: at every reachable state of the registry — after any sequence of
register, update, delete and reload operations, under any fixed process
environment — no server identifier is present in both the registered and
the runtime mapping. -/
theorem registered_runtime_disjoint (env : Env) (s : RegistryState)
    (h : Reachable env s) (id : String) :
    ¬ (hasKey s.registered id = true ∧ hasKey s.runtime id = true) := by
  have hinv := regInv_reachable env s h
  rintro ⟨h1, h2⟩
  cases hi : s.inited with
  | true =>
    have hl := hinv.2.1 hi id
    rw [hl] at h2
    rw [hinv.1 id h1] at h2
    exact absurd h2 (by simp)
  | false =>
    rw [hinv.2.2 hi] at h1
    simp [hasKey] at h1

/-- C1 witness: the disjointness at the reachable initial state. -/
theorem registered_runtime_disjoint_witness :
    ¬ (hasKey initialState.registered "a" = true
        ∧ hasKey initialState.runtime "a" = true) :=
  registered_runtime_disjoint [] initialState Reachable.init "a"

/-- C4: on an initialized registry state, registering an identifier already
present in either namespace raises a collision error and leaves the whole
state — both namespaces included — unchanged; otherwise registration
returns the descriptor built from the request with both timestamps set to
now, stores exactly it under the requested identifier, and leaves the
runtime namespace unchanged. -/
theorem register_semantics (env : Env) (now : Nat) (req : RegistrationRequest)
    (s : RegistryState) (h : s.inited = true) :
    ((hasKey s.registered req.server_id = true
        ∨ hasKey s.runtime req.server_id = true) →
      (registerServer env now req s).2 = s
      ∧ ∃ e, (registerServer env now req s).1 = Except.error e)
    ∧ (hasKey s.registered req.server_id = false →
       hasKey s.runtime req.server_id = false →
      (registerServer env now req s).1 = Except.ok (mkRegisteredServer req now)
      ∧ (registerServer env now req s).2
          = { s with registered :=
                dictInsert s.registered req.server_id (mkRegisteredServer req now) }
      ∧ lookupSrv (registerServer env now req s).2.registered req.server_id
          = some (mkRegisteredServer req now)
      ∧ (mkRegisteredServer req now).created_at = now
      ∧ (mkRegisteredServer req now).updated_at = now) := by
  have he := ensureInit_of_inited env now s h
  unfold registerServer
  rw [he]
  constructor
  · intro hcol
    by_cases h1 : hasKey s.registered req.server_id
    · simp only [h1, ite_true]
      exact ⟨trivial, ⟨.idExistsRegistered, rfl⟩⟩
    · have h2 : hasKey s.runtime req.server_id = true := by
        rcases hcol with hc | hc
        · exact absurd hc h1
        · exact hc
      simp only [h1, h2, Bool.false_eq_true, if_false, ite_true]
      exact ⟨trivial, ⟨.idExistsRuntime, rfl⟩⟩
  · intro h1 h2
    simp only [h1, h2, Bool.false_eq_true, if_false]
    exact ⟨trivial, trivial, lookupSrv_dictInsert_self _ _ _, rfl, rfl⟩

/-- C4 witness: a successful registration on the empty initialized state;
both collision tests are discharged concretely. -/
theorem register_semantics_witness :
    (registerServer [] 5 sampleRequest emptyInitedState).1
      = Except.ok (mkRegisteredServer sampleRequest 5)
    ∧ (registerServer [] 5 sampleRequest emptyInitedState).2
        = { emptyInitedState with registered := dictInsert emptyInitedState.registered sampleRequest.server_id (mkRegisteredServer sampleRequest 5) }
    ∧ lookupSrv (registerServer [] 5 sampleRequest emptyInitedState).2.registered
          sampleRequest.server_id
        = some (mkRegisteredServer sampleRequest 5)
    ∧ (mkRegisteredServer sampleRequest 5).created_at = 5
    ∧ (mkRegisteredServer sampleRequest 5).updated_at = 5 :=
  (register_semantics [] 5 sampleRequest emptyInitedState rfl).2 (by decide) (by decide)

/-- C5: on an initialized registry state, for every identifier present in
the runtime namespace both update and delete raise the immutability error
and leave the entire state — the runtime entry and everything else —
unchanged. -/
theorem runtime_update_delete_immutable (env : Env) (now : Nat) (sid : String)
    (patch : UpdateRequest) (s : RegistryState) (h : s.inited = true)
    (hk : hasKey s.runtime sid = true) :
    updateServer env now sid patch s = (Except.error RegistryError.runtimeImmutable, s)
    ∧ deleteServer env now sid s = (Except.error RegistryError.runtimeImmutable, s) := by
  have he := ensureInit_of_inited env now s h
  constructor
  · unfold updateServer
    rw [he]
    simp only [hk, ite_true]
  · unfold deleteServer
    rw [he]
    simp only [hk, ite_true]

/-- C5 witness: update and delete of the runtime identifier rt on a
concrete initialized state holding it. -/
theorem runtime_update_delete_immutable_witness :
    updateServer [] 0 "rt" emptyPatch sampleRuntimeState
      = (Except.error RegistryError.runtimeImmutable, sampleRuntimeState)
    ∧ deleteServer [] 0 "rt" sampleRuntimeState
      = (Except.error RegistryError.runtimeImmutable, sampleRuntimeState) :=
  runtime_update_delete_immutable [] 0 "rt" emptyPatch sampleRuntimeState
    rfl (by decide)

end EvalHub
